import Mathlib

/-!
Shallow embedding of the moderation-action core of the Zeppelin bot
(src/src/plugins/ModActions.ts), covering the self-action suppressor
(ignoredEvents ledger), the automatic-case event handlers, the punitive
commands (warn / mute / kick / ban / softban / unban / forceban),
the massban batch runner, and the user-notification routine.

Commands and event handlers are modelled as pure functions from an
environment (the results of the external collaborator calls: authority
check, platform mutations, audit-log fetch, message transports) to a
trace of effects, in the order the TypeScript code performs them.
-/

namespace ModActions

/-- enum IgnoredEventType from ModActions.ts. -/
inductive IgnoredEventType where
  | Ban
  | Unban
  | Kick
deriving DecidableEq, Repr

/-- interface IIgnoredEvent: one entry of the ignoredEvents ledger. -/
structure IIgnoredEvent where
  type : IgnoredEventType
  userId : String
deriving DecidableEq, Repr

/-- Case types used by the plugin (src/data/CaseTypes, referenced by name). -/
inductive CaseType where
  | Ban
  | Unban
  | Note
  | Warn
  | Kick
  | Mute
  | Unmute
  | Softban
deriving DecidableEq, Repr

/-- The payload of an actions.fire createCase call. A field omitted at the
call site is modelled as none (for options) or false (for the automatic
boolean, since an absent field is falsy in JavaScript). -/
structure CaseFields where
  userId : String
  modId : Option String
  type : CaseType
  auditLogId : Option String
  reason : Option String
  automatic : Bool
deriving DecidableEq, Repr

/-- The relevant fields of an audit-log entry returned by
findRelevantAuditLogEntry: entry.user.id, entry.id, entry.reason. -/
structure AuditLogEntry where
  userId : String
  id : String
  reason : Option String
deriving DecidableEq, Repr

/-- The Mute entity returned by actions.fire mute: only case_id matters here. -/
structure MuteEntity where
  case_id : Option Nat
deriving DecidableEq, Repr

/-- Server-log types appearing in the modelled code paths. -/
inductive LogKind where
  | memberKick
  | memberWarn
  | memberMute
  | memberUnmute
  | memberBan
  | memberUnban
  | memberSoftban
  | memberForceban
  | memberRoleAdd
  | memberRoleRemove
  | massban
deriving DecidableEq, Repr

/-- The three platform mutations issued by the modelled commands. -/
inductive MutationKind where
  | kick
  | ban
  | unban
deriving DecidableEq, Repr

/-- One observable effect of a command handler, recorded in source order.
mutation carries the success bit of the platform call; for a call whose
promise the code neither awaits nor catches, the bit is still recorded but
nothing downstream depends on it. -/
inductive Effect where
  | notify (delivered : Bool)
  | ignoreLogEff (k : LogKind) (userId : String)
  | ignoreEventEff (t : IgnoredEventType) (userId : String)
  | mutation (k : MutationKind) (userId : String) (ok : Bool)
  | caseCreated (c : CaseFields)
  | caseNote (caseId : Nat) (note : String)
  | setCaseIdEff (userId : String) (caseId : Nat)
  | opError
  | opSuccess (notified : Bool)
  | opCancelled
  | opAllFailed
  | opBanned (succ : Nat) (failed : List String)
  | serverLog (k : LogKind)
  | massbanLog (count : Nat)
deriving DecidableEq, Repr

/-! ## Self-Action Suppressor (ignoredEvents ledger) -/

/-- ignoreEvent: this.ignoredEvents.push n entry (the expiry timer is
time-dependent and modelled separately by the caller; none of the claims
proved here involve the timer firing). -/
def ignoreEvent (l : List IIgnoredEvent) (t : IgnoredEventType) (userId : String) :
    List IIgnoredEvent :=
  l ++ [⟨t, userId⟩]

/-- isEventIgnored: this.ignoredEvents.some, matching on type and userId. -/
def isEventIgnored (l : List IIgnoredEvent) (t : IgnoredEventType) (userId : String) : Bool :=
  l.any fun info => t == info.type && userId == info.userId

/-- JavaScript Array.prototype.findIndex: index of the first match, -1 if none. -/
def jsFindIndex (l : List IIgnoredEvent) (t : IgnoredEventType) (userId : String) : Int :=
  match l.findIdx? (fun info => t == info.type && userId == info.userId) with
  | some i => (i : Int)
  | none => -1

/-- JavaScript Array.prototype.splice with deleteCount 1: a negative start
counts back from the end (clamped at 0), a start past the end deletes
nothing. -/
def spliceRemove1 (l : List IIgnoredEvent) (start : Int) : List IIgnoredEvent :=
  let len : Int := l.length
  let actual : Nat := (if start < 0 then max (len + start) 0 else min start len).toNat
  l.take actual ++ l.drop (actual + 1)

/-- clearIgnoredEvent: splice(findIndex(match), 1). When no entry matches,
findIndex yields -1 and splice(-1, 1) removes the LAST element of the
ledger (whatever pair it belongs to). -/
def clearIgnoredEvent (l : List IIgnoredEvent) (t : IgnoredEventType) (userId : String) :
    List IIgnoredEvent :=
  spliceRemove1 l (jsFindIndex l t userId)

/-! ## Automatic-case event handlers -/

/-- Result of one platform-event handler run: the updated ignoredEvents
ledger, every createCase payload fired, and every serverLogs.log call. -/
structure HandlerResult where
  ignoredEvents : List IIgnoredEvent
  cases : List CaseFields
  logs : List LogKind
deriving DecidableEq, Repr

/-- onGuildBanAdd: the guildBanAdd handler. audit is the result of the
findRelevantAuditLogEntry call (none on no match or fetch error). Note the
no-match branch fires createCase with only userId and type: modId, reason
and automatic are all absent. -/
def onGuildBanAdd (l : List IIgnoredEvent) (userId : String) (audit : Option AuditLogEntry) :
    HandlerResult :=
  if isEventIgnored l .Ban userId then
    ⟨clearIgnoredEvent l .Ban userId, [], []⟩
  else
    match audit with
    | some entry =>
        ⟨l, [⟨userId, some entry.userId, .Ban, some entry.id, entry.reason, true⟩], []⟩
    | none =>
        ⟨l, [⟨userId, none, .Ban, none, none, false⟩], []⟩

/-- onGuildBanRemove: the guildBanRemove handler. Both branches fire
createCase; the no-match branch keeps automatic true but has no modId. -/
def onGuildBanRemove (l : List IIgnoredEvent) (userId : String) (audit : Option AuditLogEntry) :
    HandlerResult :=
  if isEventIgnored l .Unban userId then
    ⟨clearIgnoredEvent l .Unban userId, [], []⟩
  else
    match audit with
    | some entry =>
        ⟨l, [⟨userId, some entry.userId, .Unban, some entry.id, none, true⟩], []⟩
    | none =>
        ⟨l, [⟨userId, none, .Unban, none, none, true⟩], []⟩

/-- onGuildMemberRemove: the guildMemberRemove handler. A case (and a
MEMBER_KICK log entry) is produced only when an audit-log entry matched;
with no match the handler does nothing, since a member removal with no
kick audit entry may be a voluntary leave. -/
def onGuildMemberRemove (l : List IIgnoredEvent) (userId : String)
    (audit : Option AuditLogEntry) : HandlerResult :=
  if isEventIgnored l .Kick userId then
    ⟨clearIgnoredEvent l .Kick userId, [], []⟩
  else
    match audit with
    | some entry =>
        ⟨l, [⟨userId, some entry.userId, .Kick, some entry.id, entry.reason, true⟩],
          [.memberKick]⟩
    | none =>
        ⟨l, [], []⟩

/-! ## Notification routine -/

/-- A transport attempted by tryToMessageUser. -/
inductive Transport where
  | dm
  | channel
deriving DecidableEq, Repr

/-- Environment of tryToMessageUser: whether each transport call would
succeed, and the message_channel config value. -/
structure NotifyEnv where
  dmOk : Bool
  channelOk : Bool
  messageChannel : Option String
deriving DecidableEq, Repr

/-- tryToMessageUser: returns the messageSent boolean together with the
list of transports actually attempted. With both flags false it returns
true at once without attempting anything; the channel send is attempted
only when useChannel is set AND message_channel is configured; messageSent
becomes true when any attempted transport succeeds. -/
def tryToMessageUser (env : NotifyEnv) (useDM useChannel : Bool) : Bool × List Transport :=
  if !useDM && !useChannel then
    (true, [])
  else
    let dmSent := useDM && env.dmOk
    let dmAttempts : List Transport := if useDM then [.dm] else []
    let chanTried := useChannel && env.messageChannel.isSome
    let chanSent := chanTried && env.channelOk
    let chanAttempts : List Transport := if chanTried then [.channel] else []
    (dmSent || chanSent, dmAttempts ++ chanAttempts)

/-! ## Single-target commands -/

/-- JavaScript truthiness of an optional string argument: absent and the
empty string are falsy. -/
def jsTruthy : Option String → Bool
  | none => false
  | some s => !s.isEmpty

/-- JavaScript String.prototype.toLowerCase restricted to ASCII data. -/
def jsToLower (s : String) : String :=
  String.mk (s.data.map Char.toLower)

/-- The whitespace characters relevant to trimming the bot's text input. -/
def jsIsWhitespace (c : Char) : Bool :=
  c == ' ' || c == '\t' || c == '\n' || c == '\r'

/-- JavaScript String.prototype.trim: strip whitespace from both ends. -/
def jsTrim (s : String) : String :=
  String.mk (((s.data.dropWhile jsIsWhitespace).reverse.dropWhile jsIsWhitespace).reverse)

/-- Environment of a single-target command: the results the external
collaborators would return at each call site. -/
structure CmdEnv where
  canActOn : Bool
  targetIsMember : Bool
  reason : Option String
  notifyDelivered : Bool
  mutationOk : Bool
  unbanOk : Bool
  warnReply : Option Bool
  targetId : String
  modId : String
deriving DecidableEq, Repr

/-- warnCmd: authority check, then notification; on undelivered
notification an interactive prompt decides whether to log anyway (none =
no reaction before timeout, some false = declined, some true = approved);
only then is the Warn case created. warn has no platform mutation. -/
def warnCmd (env : CmdEnv) (reason : String) : List Effect :=
  if !env.canActOn then [.opError]
  else
    [.notify env.notifyDelivered] ++
    (if !env.notifyDelivered && (env.warnReply == none || env.warnReply == some false) then
      []
    else
      [.caseCreated ⟨env.targetId, some env.modId, .Warn, none, some reason, false⟩,
       .opSuccess true, .serverLog .memberWarn])

/-- kickCmd: authority check; notification attempted only when a reason
was given, before the kick; log-suppression and event-suppression
registered; the kick call is issued WITHOUT await or try/catch, so the
rest of the handler runs whether or not it succeeds; the Kick case is then
created unconditionally. -/
def kickCmd (env : CmdEnv) : List Effect :=
  if !env.canActOn then [.opError]
  else
    let messageSent := if jsTruthy env.reason then env.notifyDelivered else true
    (if jsTruthy env.reason then [.notify env.notifyDelivered] else []) ++
    [.ignoreLogEff .memberKick env.targetId,
     .ignoreEventEff .Kick env.targetId,
     .mutation .kick env.targetId env.mutationOk,
     .caseCreated ⟨env.targetId, some env.modId, .Kick, none, env.reason, false⟩,
     .opSuccess messageSent,
     .serverLog .memberKick]

/-- banCmd: same shape as kickCmd with the ban mutation; the ban call is
likewise fire-and-forget (no await, no try/catch). -/
def banCmd (env : CmdEnv) : List Effect :=
  if !env.canActOn then [.opError]
  else
    let messageSent := if jsTruthy env.reason then env.notifyDelivered else true
    (if jsTruthy env.reason then [.notify env.notifyDelivered] else []) ++
    [.ignoreLogEff .memberBan env.targetId,
     .ignoreEventEff .Ban env.targetId,
     .mutation .ban env.targetId env.mutationOk,
     .caseCreated ⟨env.targetId, some env.modId, .Ban, none, env.reason, false⟩,
     .opSuccess messageSent,
     .serverLog .memberBan]

/-- softbanCmd: ban then immediate unban, both awaited with no try/catch:
a rejected mutation propagates out of the handler and nothing after it
runs (modelled as the trace ending at the failed mutation). -/
def softbanCmd (env : CmdEnv) : List Effect :=
  if !env.canActOn then [.opError]
  else
    [.ignoreLogEff .memberBan env.targetId,
     .ignoreLogEff .memberUnban env.targetId,
     .ignoreEventEff .Ban env.targetId,
     .ignoreEventEff .Unban env.targetId,
     .mutation .ban env.targetId env.mutationOk] ++
    (if !env.mutationOk then []
    else
      [.mutation .unban env.targetId env.unbanOk] ++
      (if !env.unbanOk then []
      else
        [.caseCreated ⟨env.targetId, some env.modId, .Softban, none, env.reason, false⟩,
         .opSuccess true,
         .serverLog .memberSoftban]))

/-- unbanCmd: no authority check; the unban call is awaited inside
try/catch, so on failure the handler reports and returns with no case;
on success the case is created after the confirmation message. -/
def unbanCmd (env : CmdEnv) : List Effect :=
  [.ignoreLogEff .memberUnban env.targetId,
   .ignoreEventEff .Unban env.targetId,
   .mutation .unban env.targetId env.mutationOk] ++
  (if !env.mutationOk then [.opError]
  else
    [.opSuccess true,
     .caseCreated ⟨env.targetId, some env.modId, .Unban, none, env.reason, false⟩,
     .serverLog .memberUnban])

/-- forcebanCmd: authority check only when the target currently exists as
a guild member; the ban call is awaited inside try/catch, so on failure
the handler reports and returns with no case. -/
def forcebanCmd (env : CmdEnv) : List Effect :=
  if env.targetIsMember && !env.canActOn then [.opError]
  else
    [.ignoreEventEff .Ban env.targetId,
     .ignoreLogEff .memberBan env.targetId,
     .mutation .ban env.targetId env.mutationOk] ++
    (if !env.mutationOk then [.opError]
    else
      [.opSuccess true,
       .caseCreated ⟨env.targetId, some env.modId, .Ban, none, env.reason, false⟩,
       .serverLog .memberForceban])

/-- Environment of the mute command. argTime is the raw time argument,
parsedTimeMs the result of the external convertDelayStringToMS call on
it, muteResult what actions.fire mute returns (none = mute failed),
newCaseId the id the case store assigns to a freshly created case. -/
structure MuteEnv where
  muteRoleConfigured : Bool
  canActOn : Bool
  argTime : Option String
  parsedTimeMs : Option Nat
  reason : Option String
  muteResult : Option MuteEntity
  notifyDelivered : Bool
  newCaseId : Nat
  targetId : String
  modId : String
deriving DecidableEq, Repr

/-- The reason the mute command effectively uses: when a time argument
was given but did not parse as a delay, it is folded into the front of
the reason (trimmed), since it was presumably part of the reason text. -/
def effectiveMuteReason (env : MuteEnv) : Option String :=
  let muteTime := if jsTruthy env.argTime then env.parsedTimeMs else none
  if muteTime == none && jsTruthy env.argTime then
    some (jsTrim ((env.argTime.getD "") ++ " " ++
      (if jsTruthy env.reason then env.reason.getD "" else "")))
  else env.reason

/-- muteCmd: config and authority checks; apply the mute; if the returned
Mute entity already carries a case_id, append a note to that case when a
reason was given (no new case, and no notification); otherwise create a
fresh Mute case and link it via setCaseId, then notify when a reason was
given. An unparsable time argument is folded into the reason. -/
def muteCmd (env : MuteEnv) : List Effect :=
  if !env.muteRoleConfigured then [.opError]
  else if !env.canActOn then [.opError]
  else
    let reason := effectiveMuteReason env
    [.ignoreLogEff .memberRoleAdd env.targetId] ++
    match env.muteResult with
    | none => [.opError]
    | some m =>
      let hasOldCase := m.case_id.isSome
      (if hasOldCase then
        match m.case_id with
        | some cid => if jsTruthy reason then [.caseNote cid (reason.getD "")] else []
        | none => []
      else
        [.caseCreated ⟨env.targetId, some env.modId, .Mute, none, reason, false⟩,
         .setCaseIdEff env.targetId env.newCaseId]) ++
      (if jsTruthy reason && !hasOldCase then [.notify env.notifyDelivered] else []) ++
      [.opSuccess (if jsTruthy reason && !hasOldCase then env.notifyDelivered else true),
       .serverLog .memberMute]

/-! ## Batch Action Runner (massban) -/

/-- The cancellation test on the interactive reply: no reply (timeout),
an empty reply, or a reply whose lowercased trimmed content is cancel. -/
def isCancelReply : Option String → Bool
  | none => true
  | some s => s.isEmpty || jsTrim (jsToLower s) == "cancel"

/-- Environment of the massban command: the target list, the interactive
reply content, which targets currently exist as members, which existing
members the requester cannot act on, and which ban calls would reject. -/
structure MassbanEnv where
  userIds : List String
  reply : Option String
  members : List String
  deniedIds : List String
  banFails : List String
  modId : String
deriving DecidableEq, Repr

/-- The per-target ban loop of massbanCmd: for each target, await the ban
inside try/catch; on success fire createCase for that target (the payload
also sets postInCaseLog false, which only affects message rendering); on
failure push the target onto failedBans and continue with the rest.
Returns the effect trace and the failedBans list. -/
def massbanLoop (modId banReason : String) (banFails : List String) :
    List String → List Effect × List String
  | [] => ([], [])
  | u :: rest =>
    if banFails.contains u then
      (Effect.mutation .ban u false :: (massbanLoop modId banReason banFails rest).1,
       u :: (massbanLoop modId banReason banFails rest).2)
    else
      (Effect.mutation .ban u true ::
        Effect.caseCreated ⟨u, some modId, .Ban, none,
          some ("Mass ban: " ++ banReason), false⟩ ::
        (massbanLoop modId banReason banFails rest).1,
       (massbanLoop modId banReason banFails rest).2)

/-- massbanCmd: reject over 100 targets; collect the ban reason
interactively (cancellable); authority-check every target that exists as
a member BEFORE any suppression or mutation; register extended-TTL
suppressions for every target; run the ban loop; then either report that
all bans failed (no log entry) or produce exactly one MASSBAN log entry
carrying the success count, computed as total minus failed. -/
def massbanCmd (env : MassbanEnv) : List Effect :=
  if env.userIds.length > 100 then [.opError]
  else if isCancelReply env.reply then [.opCancelled]
  else if env.userIds.any (fun u => env.members.contains u && env.deniedIds.contains u) then
    [.opError]
  else
    let banReason := env.reply.getD ""
    let suppress : List Effect := env.userIds.flatMap fun u =>
      [.ignoreEventEff .Ban u, .ignoreLogEff .memberBan u]
    let r := massbanLoop env.modId banReason env.banFails env.userIds
    let failedBans := r.2
    let successfulBanCount := env.userIds.length - failedBans.length
    suppress ++ r.1 ++
    (if successfulBanCount == 0 then [.opAllFailed]
    else [.massbanLog successfulBanCount, .opBanned successfulBanCount failedBans])

/-! ## Trace extractors -/

/-- Every createCase payload fired in a trace, in order. -/
def casesOf (t : List Effect) : List CaseFields :=
  t.filterMap fun e => match e with
    | .caseCreated c => some c
    | _ => none

/-- Every createCaseNote call (case id, note body) in a trace, in order. -/
def notesOf (t : List Effect) : List (Nat × String) :=
  t.filterMap fun e => match e with
    | .caseNote cid s => some (cid, s)
    | _ => none

/-- Every platform mutation issued in a trace, with its success bit. -/
def mutationsOf (t : List Effect) : List (MutationKind × String × Bool) :=
  t.filterMap fun e => match e with
    | .mutation k u ok => some (k, u, ok)
    | _ => none

/-- Every self-action suppression registered in a trace. -/
def suppressionsOf (t : List Effect) : List (IgnoredEventType × String) :=
  t.filterMap fun e => match e with
    | .ignoreEventEff k u => some (k, u)
    | _ => none

/-- Every MASSBAN summary log entry in a trace, with its success count. -/
def massbanLogsOf (t : List Effect) : List Nat :=
  t.filterMap fun e => match e with
    | .massbanLog n => some n
    | _ => none

/-- Whether an effect is a notification attempt. -/
def isNotifyE : Effect → Bool
  | .notify _ => true
  | _ => false

/-- Whether an effect is a platform mutation. -/
def isMutationE : Effect → Bool
  | .mutation _ _ _ => true
  | _ => false

/-- Checks that every notification attempt in a trace strictly precedes
every platform mutation: from the first mutation onwards, no notification
attempt occurs. -/
def msgBeforeMutate : List Effect → Bool
  | [] => true
  | e :: rest =>
    if isMutationE e then (e :: rest).all fun x => !isNotifyE x
    else msgBeforeMutate rest

/-! ## Concrete environments used by the claim theorems -/

/-- A ban command whose platform ban call fails while everything else
succeeds. -/
def envC1x : CmdEnv :=
  { canActOn := true, targetIsMember := true, reason := some "r", notifyDelivered := true,
    mutationOk := false, unbanOk := true, warnReply := none, targetId := "t", modId := "m" }

/-- A fully successful single-target command environment. -/
def envC1w : CmdEnv :=
  { canActOn := true, targetIsMember := true, reason := some "r", notifyDelivered := true,
    mutationOk := true, unbanOk := true, warnReply := none, targetId := "t", modId := "m" }

/-- A mute environment whose mute action fails. -/
def menvC1w : MuteEnv :=
  { muteRoleConfigured := true, canActOn := true, argTime := none, parsedTimeMs := none,
    reason := some "r", muteResult := none, notifyDelivered := true,
    newCaseId := 9, targetId := "t", modId := "m" }

/-- A kick/ban environment with a reason, so a notification is attempted. -/
def envC8w : CmdEnv :=
  { canActOn := true, targetIsMember := true, reason := some "r", notifyDelivered := true,
    mutationOk := true, unbanOk := true, warnReply := none, targetId := "t", modId := "m" }

/-- A warn whose notification fails and whose operator never reacts. -/
def envC9x : CmdEnv :=
  { canActOn := true, targetIsMember := true, reason := some "r", notifyDelivered := false,
    mutationOk := true, unbanOk := true, warnReply := none, targetId := "t", modId := "m" }

/-- A command whose notification fails but whose operator approves logging. -/
def envC9w : CmdEnv :=
  { canActOn := true, targetIsMember := true, reason := some "r", notifyDelivered := false,
    mutationOk := true, unbanOk := true, warnReply := some true, targetId := "t", modId := "m" }

/-- A mute of a user with no live mute case, with a failed notification. -/
def menvC9w : MuteEnv :=
  { muteRoleConfigured := true, canActOn := true, argTime := none, parsedTimeMs := none,
    reason := some "r", muteResult := some ⟨none⟩, notifyDelivered := false,
    newCaseId := 9, targetId := "t", modId := "m" }

/-- A re-mute: the mute store reports a live mute already linked to case 7. -/
def envC5w : MuteEnv :=
  { muteRoleConfigured := true, canActOn := true, argTime := none, parsedTimeMs := none,
    reason := some "r", muteResult := some ⟨some 7⟩, notifyDelivered := true,
    newCaseId := 9, targetId := "t", modId := "m" }

/-- A massban of A, B, C where only the ban of B fails. -/
def envC6w : MassbanEnv :=
  { userIds := ["A", "B", "C"], reply := some "spam", members := [], deniedIds := [],
    banFails := ["B"], modId := "m" }

/-- A massban where target B exists as a member and fails the authority
check. -/
def envC7w : MassbanEnv :=
  { userIds := ["A", "B"], reply := some "spam", members := ["B"], deniedIds := ["B"],
    banFails := [], modId := "m" }

/-! ## Helper lemmas -/

theorem casesOf_append (a b : List Effect) : casesOf (a ++ b) = casesOf a ++ casesOf b := by
  simp [casesOf]

theorem notesOf_append (a b : List Effect) : notesOf (a ++ b) = notesOf a ++ notesOf b := by
  simp [notesOf]

theorem mutationsOf_append (a b : List Effect) :
    mutationsOf (a ++ b) = mutationsOf a ++ mutationsOf b := by
  simp [mutationsOf]

theorem suppressionsOf_append (a b : List Effect) :
    suppressionsOf (a ++ b) = suppressionsOf a ++ suppressionsOf b := by
  simp [suppressionsOf]

theorem massbanLogsOf_append (a b : List Effect) :
    massbanLogsOf (a ++ b) = massbanLogsOf a ++ massbanLogsOf b := by
  simp [massbanLogsOf]

theorem isEventIgnored_nil (t : IgnoredEventType) (u : String) :
    isEventIgnored [] t u = false := rfl

theorem isEventIgnored_singleton_self (t : IgnoredEventType) (u : String) :
    isEventIgnored [⟨t, u⟩] t u = true := by
  simp [isEventIgnored]

theorem clearIgnoredEvent_singleton_self (t : IgnoredEventType) (u : String) :
    clearIgnoredEvent [⟨t, u⟩] t u = [] := by
  simp [clearIgnoredEvent, jsFindIndex, List.findIdx?, spliceRemove1]

theorem onGuildBanAdd_suppressed_singleton (u : String) (a : Option AuditLogEntry) :
    onGuildBanAdd [⟨.Ban, u⟩] u a = ⟨[], [], []⟩ := by
  simp [onGuildBanAdd, isEventIgnored_singleton_self, clearIgnoredEvent_singleton_self]

theorem onGuildBanRemove_suppressed_singleton (u : String) (a : Option AuditLogEntry) :
    onGuildBanRemove [⟨.Unban, u⟩] u a = ⟨[], [], []⟩ := by
  simp [onGuildBanRemove, isEventIgnored_singleton_self, clearIgnoredEvent_singleton_self]

theorem onGuildMemberRemove_suppressed_singleton (u : String) (a : Option AuditLogEntry) :
    onGuildMemberRemove [⟨.Kick, u⟩] u a = ⟨[], [], []⟩ := by
  simp [onGuildMemberRemove, isEventIgnored_singleton_self, clearIgnoredEvent_singleton_self]

theorem onGuildBanAdd_nil_cases (u : String) (a : Option AuditLogEntry) :
    (onGuildBanAdd [] u a).cases.length = 1 := by
  cases a <;> simp [onGuildBanAdd, isEventIgnored]

theorem onGuildBanRemove_nil_cases (u : String) (a : Option AuditLogEntry) :
    (onGuildBanRemove [] u a).cases.length = 1 := by
  cases a <;> simp [onGuildBanRemove, isEventIgnored]

theorem onGuildMemberRemove_nil_cases (u : String) (a : Option AuditLogEntry) :
    (onGuildMemberRemove [] u a).cases.length = if a.isSome then 1 else 0 := by
  cases a <;> simp [onGuildMemberRemove, isEventIgnored]

/-- Soundness of the msgBeforeMutate checker: when it accepts a trace,
every notification attempt sits at a strictly smaller index than every
platform mutation. -/
theorem msgBeforeMutate_sound (t : List Effect) (h : msgBeforeMutate t = true)
    (i j : Nat) (hi : i < t.length) (hj : j < t.length)
    (hni : isNotifyE (t.get ⟨i, hi⟩) = true) (hmj : isMutationE (t.get ⟨j, hj⟩) = true) :
    i < j := by
  induction t generalizing i j with
  | nil => exact absurd hi (by simp)
  | cons e rest ih =>
    by_cases hm : isMutationE e = true
    · rw [msgBeforeMutate, if_pos hm] at h
      have hall := List.all_eq_true.mp h
      have : isNotifyE ((e :: rest).get ⟨i, hi⟩) = false := by
        have := hall ((e :: rest).get ⟨i, hi⟩) (List.get_mem _ _ _)
        simpa using this
      rw [hni] at this
      exact absurd this (by simp)
    · rw [msgBeforeMutate, if_neg hm] at h
      cases i with
      | zero =>
        cases j with
        | zero => exact absurd hmj (by simpa using hm)
        | succ k => exact Nat.succ_pos k
      | succ m =>
        cases j with
        | zero => exact absurd hmj (by simpa using hm)
        | succ k =>
          have := ih h m k (Nat.lt_of_succ_lt_succ hi) (Nat.lt_of_succ_lt_succ hj)
            (by simpa using hni) (by simpa using hmj)
          exact Nat.succ_lt_succ this

theorem massbanLoop_cases (modId r : String) (bf ids : List String) :
    casesOf (massbanLoop modId r bf ids).1 =
      (ids.filter fun u => !(bf.contains u)).map
        (fun u => ⟨u, some modId, .Ban, none, some ("Mass ban: " ++ r), false⟩) := by
  induction ids with
  | nil => rfl
  | cons a t ih =>
    by_cases h : a ∈ bf <;>
      simpa [massbanLoop, h, casesOf, List.filter_cons] using ih

theorem massbanLoop_failed (modId r : String) (bf ids : List String) :
    (massbanLoop modId r bf ids).2 = ids.filter fun u => bf.contains u := by
  induction ids with
  | nil => rfl
  | cons a t ih =>
    by_cases h : a ∈ bf <;>
      simpa [massbanLoop, h, List.filter_cons] using ih

theorem massbanLoop_mutations (modId r : String) (bf ids : List String) :
    mutationsOf (massbanLoop modId r bf ids).1 =
      ids.map fun u => (MutationKind.ban, u, !(bf.contains u)) := by
  induction ids with
  | nil => rfl
  | cons a t ih =>
    by_cases h : a ∈ bf <;>
      simpa [massbanLoop, h, mutationsOf] using ih

theorem massbanLoop_logs (modId r : String) (bf ids : List String) :
    massbanLogsOf (massbanLoop modId r bf ids).1 = [] := by
  induction ids with
  | nil => rfl
  | cons a t ih =>
    by_cases h : a ∈ bf <;>
      simpa [massbanLoop, h, massbanLogsOf] using ih

theorem massbanLoop_suppressions (modId r : String) (bf ids : List String) :
    suppressionsOf (massbanLoop modId r bf ids).1 = [] := by
  induction ids with
  | nil => rfl
  | cons a t ih =>
    by_cases h : a ∈ bf <;>
      simpa [massbanLoop, h, suppressionsOf] using ih

theorem opAllFailed_not_mem_loop (modId r : String) (bf ids : List String) :
    Effect.opAllFailed ∉ (massbanLoop modId r bf ids).1 := by
  induction ids with
  | nil => simp [massbanLoop]
  | cons a t ih =>
    by_cases h : a ∈ bf <;> simp [massbanLoop, h, ih]

theorem massbanSuppress_casesOf (ids : List String) :
    casesOf (ids.flatMap fun u =>
      [Effect.ignoreEventEff .Ban u, Effect.ignoreLogEff .memberBan u]) = [] := by
  induction ids with
  | nil => rfl
  | cons a t ih =>
    rw [List.flatMap_cons, casesOf_append, ih]
    rfl

theorem massbanSuppress_mutationsOf (ids : List String) :
    mutationsOf (ids.flatMap fun u =>
      [Effect.ignoreEventEff .Ban u, Effect.ignoreLogEff .memberBan u]) = [] := by
  induction ids with
  | nil => rfl
  | cons a t ih =>
    rw [List.flatMap_cons, mutationsOf_append, ih]
    rfl

theorem massbanSuppress_logsOf (ids : List String) :
    massbanLogsOf (ids.flatMap fun u =>
      [Effect.ignoreEventEff .Ban u, Effect.ignoreLogEff .memberBan u]) = [] := by
  induction ids with
  | nil => rfl
  | cons a t ih =>
    rw [List.flatMap_cons, massbanLogsOf_append, ih]
    rfl

theorem opAllFailed_not_mem_suppress (ids : List String) :
    Effect.opAllFailed ∉ (ids.flatMap fun u =>
      [Effect.ignoreEventEff .Ban u, Effect.ignoreLogEff .memberBan u]) := by
  simp

theorem successCount_eq (ids bf : List String) :
    ids.length - (ids.filter fun u => bf.contains u).length
      = (ids.filter fun u => !(bf.contains u)).length := by
  have h : ids.length = (ids.filter fun u => bf.contains u).length
      + (ids.filter fun u => !(bf.contains u)).length :=
    List.length_eq_length_filter_add _
  omega

/-! ## Claim theorems -/

/-- C3 (code bug): consuming a suppression for a pair with no matching
ledger entry is NOT a no-op when the ledger is non-empty: findIndex
returns -1 and splice(-1, 1) deletes the LAST ledger entry, here the
unrelated (Ban, u2) entry. When a matching entry exists, exactly the
first matching entry is removed and all other entries survive. -/
theorem clearIgnoredEvent_absent_removes_unrelated :
    clearIgnoredEvent [⟨.Ban, "u2"⟩] .Kick "u1" = [] ∧
    clearIgnoredEvent [⟨.Ban, "u2"⟩, ⟨.Kick, "u1"⟩, ⟨.Kick, "u1"⟩] .Kick "u1"
      = [⟨.Ban, "u2"⟩, ⟨.Kick, "u1"⟩] := by
  decide

/-- C10: with direct messaging off, channel fallback on, and no
message_channel configured, tryToMessageUser attempts no transport and
returns delivered = false; the channel transport is never attempted while
no channel is configured; only the both-disabled configuration returns the
vacuous true. -/
theorem tryToMessageUser_no_channel_configured (dmOk chOk useDM uc : Bool) :
    tryToMessageUser ⟨dmOk, chOk, none⟩ false true = (false, []) ∧
    ((tryToMessageUser ⟨dmOk, chOk, none⟩ useDM uc).2.contains Transport.channel) = false ∧
    tryToMessageUser ⟨dmOk, chOk, none⟩ false false = (true, []) := by
  cases dmOk <;> cases chOk <;> cases useDM <;> cases uc <;> decide

/-- C2 fails on the code: an externally observed kick (guildMemberRemove)
with no audit-log match creates NO case at all, and an externally observed
ban with no match creates a case whose automatic flag is absent (false),
not true. -/
theorem unattributed_events_counterexample :
    (onGuildMemberRemove [] "u" none).cases = [] ∧
    (onGuildBanAdd [] "u" none).cases = [⟨"u", none, .Ban, none, none, false⟩] := by
  decide

/-- C2 amended: for non-suppressed Ban and Unban events a no-match audit
correlation still yields exactly one case with moderatorId absent (the
Unban payload carries automatic = true, the Ban payload omits the flag,
i.e. automatic = false); for Kick, no case is created without a match. -/
theorem unattributed_events_amended (l : List IIgnoredEvent) (u : String)
    (h1 : isEventIgnored l .Ban u = false)
    (h2 : isEventIgnored l .Unban u = false)
    (h3 : isEventIgnored l .Kick u = false) :
    (onGuildBanAdd l u none).cases = [⟨u, none, .Ban, none, none, false⟩] ∧
    (onGuildBanRemove l u none).cases = [⟨u, none, .Unban, none, none, true⟩] ∧
    (onGuildMemberRemove l u none).cases = [] := by
  simp [onGuildBanAdd, onGuildBanRemove, onGuildMemberRemove, h1, h2, h3]

/-- C2 amended, witness at the empty ledger and user w. -/
theorem unattributed_events_amended_witness :
    (onGuildBanAdd [] "w" none).cases = [⟨"w", none, .Ban, none, none, false⟩] ∧
    (onGuildBanRemove [] "w" none).cases = [⟨"w", none, .Unban, none, none, true⟩] ∧
    (onGuildMemberRemove [] "w" none).cases = [] :=
  unattributed_events_amended [] "w" rfl rfl rfl

/-- C4: registering one suppression for (kind, u) and then observing one
matching event yields zero automatic cases and consumes the ledger entry;
a second matching event is then handled by the normal unsuppressed path:
for Ban and Unban it always creates exactly one case, for Kick it creates
one exactly when the audit log matches. -/
theorem suppression_consumed_then_normal (u : String) (a1 a2 : Option AuditLogEntry) :
    (onGuildBanAdd (ignoreEvent [] .Ban u) u a1).cases = [] ∧
    (onGuildBanAdd (ignoreEvent [] .Ban u) u a1).ignoredEvents = [] ∧
    (onGuildBanAdd (onGuildBanAdd (ignoreEvent [] .Ban u) u a1).ignoredEvents u a2).cases.length
      = 1 ∧
    (onGuildBanRemove (ignoreEvent [] .Unban u) u a1).cases = [] ∧
    (onGuildBanRemove (ignoreEvent [] .Unban u) u a1).ignoredEvents = [] ∧
    (onGuildBanRemove (onGuildBanRemove (ignoreEvent [] .Unban u) u a1).ignoredEvents u
      a2).cases.length = 1 ∧
    (onGuildMemberRemove (ignoreEvent [] .Kick u) u a1).cases = [] ∧
    (onGuildMemberRemove (ignoreEvent [] .Kick u) u a1).ignoredEvents = [] ∧
    (onGuildMemberRemove (onGuildMemberRemove (ignoreEvent [] .Kick u) u a1).ignoredEvents u
      a2).cases.length = (if a2.isSome then 1 else 0) := by
  have hb : onGuildBanAdd (ignoreEvent [] .Ban u) u a1 = ⟨[], [], []⟩ :=
    onGuildBanAdd_suppressed_singleton u a1
  have hub : onGuildBanRemove (ignoreEvent [] .Unban u) u a1 = ⟨[], [], []⟩ :=
    onGuildBanRemove_suppressed_singleton u a1
  have hk : onGuildMemberRemove (ignoreEvent [] .Kick u) u a1 = ⟨[], [], []⟩ :=
    onGuildMemberRemove_suppressed_singleton u a1
  rw [hb, hub, hk]
  exact ⟨rfl, rfl, onGuildBanAdd_nil_cases u a2, rfl, rfl, onGuildBanRemove_nil_cases u a2,
    rfl, rfl, onGuildMemberRemove_nil_cases u a2⟩

/-- C1 fails on the code: a ban command that passes the authority check
creates its case even when the platform ban call fails, because the ban
promise is neither awaited nor guarded by try/catch. -/
theorem case_iff_mutation_counterexample :
    envC1x.canActOn = true ∧
    mutationsOf (banCmd envC1x) = [(.ban, "t", false)] ∧
    casesOf (banCmd envC1x) = [⟨"t", some "m", .Ban, none, some "r", false⟩] := by
  decide

/-- C1 amended: unban and forceban couple case creation 1:1 to mutation
success (try/catch), and softban creates its case exactly when both of
its awaited mutations succeed; but kick and ban fire their mutation
without awaiting it and create their case unconditionally once the
authority check passes. -/
theorem case_iff_mutation_amended (env : CmdEnv) (menv : MuteEnv) :
    ((casesOf (unbanCmd env)).length = if env.mutationOk then 1 else 0) ∧
    ((env.targetIsMember = true → env.canActOn = true) →
      (casesOf (forcebanCmd env)).length = if env.mutationOk then 1 else 0) ∧
    (env.canActOn = true →
      (casesOf (softbanCmd env)).length = if env.mutationOk && env.unbanOk then 1 else 0) ∧
    (menv.muteResult = none → casesOf (muteCmd menv) = []) ∧
    (env.canActOn = true → (casesOf (kickCmd env)).length = 1) ∧
    (env.canActOn = true → (casesOf (banCmd env)).length = 1) := by
  obtain ⟨act, mem, rs, nd, mok, uok, wr, tid, mid⟩ := env
  refine ⟨?_, ?_, ?_, ?_, ?_, ?_⟩
  case refine_4 =>
    intro hmres
    obtain ⟨mrc, mact, at', pt, mrs, mres, mnd, nci, mtid, mmid⟩ := menv
    simp only at hmres
    subst hmres
    cases mrc <;> cases mact <;> simp [muteCmd, casesOf]
  all_goals
    cases act <;> cases mem <;> cases mok <;> cases uok <;>
      by_cases h : jsTruthy rs <;>
        simp [unbanCmd, forcebanCmd, softbanCmd, kickCmd, banCmd, casesOf, h]

/-- C1 amended, witness: a fully successful environment, and a mute whose
mute action fails. -/
theorem case_iff_mutation_amended_witness :
    (casesOf (unbanCmd envC1w)).length = 1 ∧
    (casesOf (forcebanCmd envC1w)).length = 1 ∧
    (casesOf (softbanCmd envC1w)).length = 1 ∧
    casesOf (muteCmd menvC1w) = [] ∧
    (casesOf (kickCmd envC1w)).length = 1 ∧
    (casesOf (banCmd envC1w)).length = 1 := by
  obtain ⟨h1, h2, h3, h4, h5, h6⟩ := case_iff_mutation_amended envC1w menvC1w
  exact ⟨h1, h2 (fun _ => rfl), h3 rfl, h4 rfl, h5 rfl, h6 rfl⟩

/-- C8: in every kick and ban command trace that passes the authority
check, every notification attempt strictly precedes every platform
mutation (see msgBeforeMutate_sound for the index-ordering reading). -/
theorem message_before_mutate (env : CmdEnv) (h : env.canActOn = true) :
    msgBeforeMutate (kickCmd env) = true ∧ msgBeforeMutate (banCmd env) = true := by
  obtain ⟨act, mem, rs, nd, mok, uok, wr, tid, mid⟩ := env
  subst h
  by_cases hr : jsTruthy rs <;>
    simp [kickCmd, banCmd, msgBeforeMutate, isMutationE, isNotifyE, hr]

/-- C8 witness: a concrete kick/ban environment with a reason, so a
notification is attempted. -/
theorem message_before_mutate_witness :
    msgBeforeMutate (kickCmd envC8w) = true ∧ msgBeforeMutate (banCmd envC8w) = true :=
  message_before_mutate envC8w rfl

/-- C9 fails on the code: a warn whose notification fails and whose
operator never reacts to the log-anyway prompt creates NO case, so for
warn a failed notification can prevent case creation. -/
theorem notify_failure_counterexample :
    envC9x.canActOn = true ∧
    warnCmd envC9x "r" = [.notify false] ∧
    casesOf (warnCmd envC9x "r") = [] := by
  decide

/-- C9 amended: for kick, ban and mute a failed notification never
prevents case creation (the failure is only surfaced in the operator
response); for warn, a failed notification interposes an interactive
prompt and the case is created exactly when the notification succeeded or
the operator approved logging anyway. -/
theorem notify_failure_amended (env : CmdEnv) (menv : MuteEnv) (reason : String)
    (h : env.canActOn = true) :
    (casesOf (kickCmd env)).length = 1 ∧
    Effect.opSuccess (if jsTruthy env.reason then env.notifyDelivered else true) ∈ kickCmd env ∧
    (casesOf (banCmd env)).length = 1 ∧
    Effect.opSuccess (if jsTruthy env.reason then env.notifyDelivered else true) ∈ banCmd env ∧
    (menv.muteRoleConfigured = true → menv.canActOn = true → menv.muteResult = some ⟨none⟩ →
      (casesOf (muteCmd menv)).length = 1) ∧
    (casesOf (warnCmd env reason)).length =
      (if env.notifyDelivered || env.warnReply == some true then 1 else 0) := by
  obtain ⟨act, mem, rs, nd, mok, uok, wr, tid, mid⟩ := env
  subst h
  refine ⟨?_, ?_, ?_, ?_, ?_, ?_⟩
  · by_cases hr : jsTruthy rs <;> simp [kickCmd, casesOf, hr]
  · by_cases hr : jsTruthy rs <;> simp [kickCmd, hr]
  · by_cases hr : jsTruthy rs <;> simp [banCmd, casesOf, hr]
  · by_cases hr : jsTruthy rs <;> simp [banCmd, hr]
  · intro hrole hact hmres
    obtain ⟨mrc, mact, at', pt, mrs, mres, mnd, nci, mtid, mmid⟩ := menv
    simp only at hrole hact hmres
    subst hrole hact hmres
    by_cases hr : jsTruthy (effectiveMuteReason
      ⟨true, true, at', pt, mrs, some ⟨none⟩, mnd, nci, mtid, mmid⟩) <;>
        simp [muteCmd, casesOf, hr]
  · rcases wr with _ | b
    · cases nd <;> simp [warnCmd, casesOf]
    · cases b <;> cases nd <;> simp [warnCmd, casesOf]

/-- C9 amended, witness: failed notification with operator approval for
warn, and a fresh mute with failed notification. -/
theorem notify_failure_amended_witness :
    (casesOf (kickCmd envC9w)).length = 1 ∧
    (casesOf (muteCmd menvC9w)).length = 1 ∧
    (casesOf (warnCmd envC9w "r")).length = 1 := by
  obtain ⟨h1, h2, h3, h4, h5, h6⟩ := notify_failure_amended envC9w menvC9w "r" rfl
  exact ⟨h1, h5 rfl rfl rfl, by simpa using h6⟩

/-- C5: a mute command on a user whose live MuteState already carries a
case id creates no new case; it appends exactly one note to that case
when an (effective) reason is supplied and none otherwise; and whenever
any muteCmd run creates a case, the mute store had reported a live mute
with NO linked case. -/
theorem remute_reuses_existing_case (env env2 : MuteEnv) (cid : Nat)
    (hrole : env.muteRoleConfigured = true) (hact : env.canActOn = true)
    (hmute : env.muteResult = some ⟨some cid⟩) :
    casesOf (muteCmd env) = [] ∧
    notesOf (muteCmd env) =
      (if jsTruthy (effectiveMuteReason env) then [(cid, (effectiveMuteReason env).getD "")]
       else []) ∧
    (casesOf (muteCmd env2) ≠ [] → env2.muteResult = some ⟨none⟩) := by
  refine ⟨?_, ?_, ?_⟩
  · by_cases hr : jsTruthy (effectiveMuteReason env) <;>
      simp [muteCmd, hrole, hact, hmute, casesOf, hr]
  · by_cases hr : jsTruthy (effectiveMuteReason env) <;>
      simp [muteCmd, hrole, hact, hmute, notesOf, hr]
  · intro hne
    obtain ⟨mrc, mact, at', pt, mrs, mres, mnd, nci, mtid, mmid⟩ := env2
    cases mrc
    · simp [muteCmd, casesOf] at hne
    cases mact
    · simp [muteCmd, casesOf] at hne
    match mres with
    | none => simp [muteCmd, casesOf] at hne
    | some ⟨none⟩ => rfl
    | some ⟨some c⟩ =>
      by_cases hr : jsTruthy (effectiveMuteReason
        ⟨true, true, at', pt, mrs, some ⟨some c⟩, mnd, nci, mtid, mmid⟩) <;>
          simp [muteCmd, casesOf, hr] at hne

/-- C5 witness: re-muting with live case 7 and a reason appends one note
to case 7 and creates no case. -/
theorem remute_reuses_existing_case_witness :
    casesOf (muteCmd envC5w) = [] ∧ notesOf (muteCmd envC5w) = [(7, "r")] := by
  obtain ⟨h1, h2, h3⟩ := remute_reuses_existing_case envC5w envC5w 7 rfl rfl rfl
  refine ⟨h1, ?_⟩
  rw [h2]
  decide

/-- C7: when some target that currently exists as a member fails the
authority check (the batch being within the cap and not cancelled),
massban aborts with only an error message: zero mutations are issued,
zero cases are created and zero suppressions are registered. -/
theorem massban_precheck_aborts (env : MassbanEnv)
    (hcap : env.userIds.length ≤ 100)
    (hreply : isCancelReply env.reply = false)
    (hbad : env.userIds.any
      (fun u => env.members.contains u && env.deniedIds.contains u) = true) :
    massbanCmd env = [.opError] ∧
    mutationsOf (massbanCmd env) = [] ∧
    casesOf (massbanCmd env) = [] ∧
    suppressionsOf (massbanCmd env) = [] := by
  have hc : ¬ (env.userIds.length > 100) := by omega
  have ht : massbanCmd env = [.opError] := by
    rw [massbanCmd, if_neg hc, if_neg (by simp [hreply]), if_pos hbad]
  exact ⟨ht, by rw [ht]; rfl, by rw [ht]; rfl, by rw [ht]; rfl⟩

/-- C7 witness: target B exists as a member and cannot be acted on. -/
theorem massban_precheck_aborts_witness :
    massbanCmd envC7w = [.opError] ∧
    mutationsOf (massbanCmd envC7w) = [] ∧
    casesOf (massbanCmd envC7w) = [] ∧
    suppressionsOf (massbanCmd envC7w) = [] :=
  massban_precheck_aborts envC7w (by decide) (by decide) (by decide)

/-- C6: in a massban that passes the cap, confirmation and authority
checks, every target is attempted (one ban mutation each, failures do not
halt the batch), exactly the successful targets receive a case, the
single MASSBAN summary log entry carries the success count and exists
exactly when at least one target succeeded, the all-failed message
appears exactly when zero succeeded, and otherwise the operator response
carries the success count and the failed targets. -/
theorem massban_partial_failure (env : MassbanEnv)
    (hcap : env.userIds.length ≤ 100)
    (hreply : isCancelReply env.reply = false)
    (hauth : env.userIds.any
      (fun u => env.members.contains u && env.deniedIds.contains u) = false) :
    casesOf (massbanCmd env) =
      (env.userIds.filter fun u => !(env.banFails.contains u)).map
        (fun u => ⟨u, some env.modId, .Ban, none,
          some ("Mass ban: " ++ env.reply.getD ""), false⟩) ∧
    mutationsOf (massbanCmd env) =
      env.userIds.map (fun u => (MutationKind.ban, u, !(env.banFails.contains u))) ∧
    massbanLogsOf (massbanCmd env) =
      (if (env.userIds.filter fun u => !(env.banFails.contains u)).length = 0 then []
       else [(env.userIds.filter fun u => !(env.banFails.contains u)).length]) ∧
    (Effect.opAllFailed ∈ massbanCmd env ↔
      (env.userIds.filter fun u => !(env.banFails.contains u)).length = 0) ∧
    ((env.userIds.filter fun u => !(env.banFails.contains u)).length ≠ 0 →
      Effect.opBanned ((env.userIds.filter fun u => !(env.banFails.contains u)).length)
        (env.userIds.filter fun u => env.banFails.contains u) ∈ massbanCmd env) := by
  have hc : ¬ (env.userIds.length > 100) := by omega
  have hfail := massbanLoop_failed env.modId (env.reply.getD "") env.banFails env.userIds
  have hcnt := successCount_eq env.userIds env.banFails
  have hauthn : ¬ ((env.userIds.any
      fun u => env.members.contains u && env.deniedIds.contains u) = true) := by
    rw [hauth]
    exact Bool.false_ne_true
  by_cases h0 : (env.userIds.filter fun u => !(env.banFails.contains u)).length = 0
  · have ht : massbanCmd env =
        (env.userIds.flatMap fun u =>
          [Effect.ignoreEventEff .Ban u, Effect.ignoreLogEff .memberBan u]) ++
        ((massbanLoop env.modId (env.reply.getD "") env.banFails env.userIds).1 ++
          [Effect.opAllFailed]) := by
      rw [massbanCmd, if_neg hc, if_neg (by simp [hreply]), if_neg hauthn]
      simp only [hfail, hcnt]
      rw [if_pos (by simpa using h0), List.append_assoc]
    refine ⟨?_, ?_, ?_, ?_, ?_⟩
    · rw [ht, casesOf_append, casesOf_append, massbanSuppress_casesOf, massbanLoop_cases]
      simp [casesOf]
    · rw [ht, mutationsOf_append, mutationsOf_append, massbanSuppress_mutationsOf,
        massbanLoop_mutations]
      simp [mutationsOf]
    · rw [ht, massbanLogsOf_append, massbanLogsOf_append, massbanSuppress_logsOf,
        massbanLoop_logs, if_pos h0]
      rfl
    · rw [ht]
      apply iff_of_true
      · simp
      · exact h0
    · intro hne
      exact absurd h0 hne
  · have ht : massbanCmd env =
        (env.userIds.flatMap fun u =>
          [Effect.ignoreEventEff .Ban u, Effect.ignoreLogEff .memberBan u]) ++
        ((massbanLoop env.modId (env.reply.getD "") env.banFails env.userIds).1 ++
          [Effect.massbanLog ((env.userIds.filter fun u => !(env.banFails.contains u)).length),
           Effect.opBanned ((env.userIds.filter fun u => !(env.banFails.contains u)).length)
             (env.userIds.filter fun u => env.banFails.contains u)]) := by
      rw [massbanCmd, if_neg hc, if_neg (by simp [hreply]), if_neg hauthn]
      simp only [hfail, hcnt]
      rw [if_neg (by simpa using h0), List.append_assoc]
    refine ⟨?_, ?_, ?_, ?_, ?_⟩
    · rw [ht, casesOf_append, casesOf_append, massbanSuppress_casesOf, massbanLoop_cases]
      simp [casesOf]
    · rw [ht, mutationsOf_append, mutationsOf_append, massbanSuppress_mutationsOf,
        massbanLoop_mutations]
      simp [mutationsOf]
    · rw [ht, massbanLogsOf_append, massbanLogsOf_append, massbanSuppress_logsOf,
        massbanLoop_logs, if_neg h0]
      rfl
    · rw [ht]
      apply iff_of_false
      · intro hmem
        rcases List.mem_append.mp hmem with h1 | h2
        · exact opAllFailed_not_mem_suppress _ h1
        · rcases List.mem_append.mp h2 with h3 | h4
          · exact opAllFailed_not_mem_loop _ _ _ _ h3
          · simp at h4
      · exact h0
    · intro hne
      rw [ht]
      simp

/-- C6 witness: massban of A, B, C where only the ban of B fails yields
cases for A and C and one summary log entry with count 2. -/
theorem massban_partial_failure_witness :
    casesOf (massbanCmd envC6w) =
      [⟨"A", some "m", .Ban, none, some "Mass ban: spam", false⟩,
       ⟨"C", some "m", .Ban, none, some "Mass ban: spam", false⟩] ∧
    massbanLogsOf (massbanCmd envC6w) = [2] ∧
    (mutationsOf (massbanCmd envC6w)).length = 3 := by
  obtain ⟨h1, h2, h3, h4, h5⟩ :=
    massban_partial_failure envC6w (by decide) (by decide) (by decide)
  refine ⟨?_, ?_, ?_⟩
  · rw [h1]
    decide
  · rw [h3]
    decide
  · rw [h2]
    decide

end ModActions
